import Mathlib

/-!
Shallow embedding of the radiation alert core in `src/radiacao.py`.

The source is a MyHDL design.  The substantive logic is the single
always-comb process `check_radiation` inside `RadiationAlertSystem`.
We embed one execution of that process body as a transition function on an
explicit state record: within one execution every *read* of a signal sees
the current (pre-tick) value, and every `.next` assignment becomes the
corresponding post-tick field.  In particular the reads of `alert_mode`
(line 39 and line 47), `exposure_time` (line 44) and
`accumulated_radiation` (line 44) see the values from the previous tick,
not the values scheduled earlier in the same execution.

Bit widths come from the test harness (`test_radiation_alert`):
`radiation_level` and each `event_radiation_log` cell are 8-bit,
`alert_mode` and each `event_alert_log` cell are 2-bit, `exposure_time`
is 4-bit, `accumulated_radiation` is 16-bit, `alert` and
`protection_mode` are 1-bit, and both logs have 10 cells.  A MyHDL
`intbv(0)[w:]` has inclusive range `0 .. 2^w - 1` and its `.max`
attribute is the exclusive bound `2^w`; so on line 25 and line 28 the
accumulator is compared against `65536` and clamped to `65536 - 1`.

The only assignment in the body that can leave its target's range for a
representable state and input is `exposure_time.next = exposure_time + 1`
(line 40), which violates the 4-bit bound when `exposure_time` is already
15; MyHDL raises a `ValueError` there.  We model the transition as
`Option`-valued, returning `none` exactly in that case.
-/

/-- The per-tick state of the alert core: the driven signals of
`check_radiation` together with the internal `log_index` signal. -/
structure AlertState where
  accumulated_radiation : Nat
  alert_mode : Nat
  protection_mode : Nat
  exposure_time : Nat
  alert : Nat
  event_radiation_log : List Nat
  event_alert_log : List Nat
  log_index : Nat
deriving Repr, DecidableEq

/-- One execution of the `check_radiation` process body, translated
statement by statement from lines 22-50 of `src/radiacao.py`.  Reads of
signals use the pre-tick field values of `s`; `.next` assignments build
the returned state.  `none` models the `intbv` bounds violation raised
when `exposure_time + 1` exceeds the 4-bit range. -/
def check_radiation (limit : Nat) (s : AlertState) (radiation_level : Nat) :
    Option AlertState :=
  let max_exposure_time := 3
  let critical_limit := limit + 50
  let new_accumulated := s.accumulated_radiation + radiation_level
  let accumulated_next : Nat :=
    if new_accumulated < 65536 then new_accumulated else 65536 - 1
  let alert_mode_next : Nat :=
    if radiation_level > critical_limit then 2
    else if radiation_level > limit then 1
    else 0
  let protection_mode_next : Nat :=
    if radiation_level > critical_limit then 1
    else if radiation_level > limit then s.protection_mode
    else 0
  let exposure_time_next : Nat :=
    if s.alert_mode ≠ 0 then s.exposure_time + 1 else 0
  if exposure_time_next ≥ 16 then
    none
  else if s.exposure_time ≥ max_exposure_time ∨ s.accumulated_radiation ≥ 300 then
    some { accumulated_radiation := accumulated_next
           alert_mode := alert_mode_next
           protection_mode := protection_mode_next
           exposure_time := exposure_time_next
           alert := 1
           event_radiation_log :=
             s.event_radiation_log.set s.log_index radiation_level
           event_alert_log :=
             s.event_alert_log.set s.log_index s.alert_mode
           log_index := (s.log_index + 1) % s.event_radiation_log.length }
  else
    some { accumulated_radiation := accumulated_next
           alert_mode := alert_mode_next
           protection_mode := protection_mode_next
           exposure_time := exposure_time_next
           alert := 0
           event_radiation_log := s.event_radiation_log
           event_alert_log := s.event_alert_log
           log_index := s.log_index }

/-- The all-zero state the harness constructs: every signal starts at 0
and both logs have 10 zeroed cells. -/
def initialState : AlertState :=
  { accumulated_radiation := 0
    alert_mode := 0
    protection_mode := 0
    exposure_time := 0
    alert := 0
    event_radiation_log := List.replicate 10 0
    event_alert_log := List.replicate 10 0
    log_index := 0 }

/-- Apply `check_radiation` once per reading, left to right; `none` if
any tick fails. -/
def runFrom (limit : Nat) (s : AlertState) : List Nat → Option AlertState
  | [] => some s
  | r :: rs =>
    match check_radiation limit s r with
    | some s2 => runFrom limit s2 rs
    | none => none

/-- The list of post-tick states of a run, one per reading, cut short at
a failing tick. -/
def traceFrom (limit : Nat) (s : AlertState) : List Nat → List AlertState
  | [] => []
  | r :: rs =>
    match check_radiation limit s r with
    | some s2 => s2 :: traceFrom limit s2 rs
    | none => []

/-- A state is representable when every field fits the bit width its
signal is declared with in the harness. -/
def Representable (s : AlertState) : Prop :=
  s.accumulated_radiation < 65536 ∧ s.alert_mode < 4 ∧
  s.protection_mode < 2 ∧ s.exposure_time < 16 ∧ s.alert < 2 ∧
  s.event_radiation_log.length = 10 ∧ s.event_alert_log.length = 10 ∧
  s.log_index < 10

instance (s : AlertState) : Decidable (Representable s) := by
  unfold Representable; infer_instance

/-- The log portion of the state: the two event arrays and the cursor. -/
structure LogState where
  event_radiation_log : List Nat
  event_alert_log : List Nat
  log_index : Nat
deriving Repr, DecidableEq

/-- Project the log portion out of an alert state. -/
def AlertState.logOf (s : AlertState) : LogState :=
  { event_radiation_log := s.event_radiation_log
    event_alert_log := s.event_alert_log
    log_index := s.log_index }

/-- The log-writing effect of one trip, exactly lines 46-48 of the
source: write the reading and the pre-tick alert mode at the cursor,
then advance the cursor modulo the array length. -/
def writeEvent (radiation_level old_alert_mode : Nat) (L : LogState) : LogState :=
  { event_radiation_log := L.event_radiation_log.set L.log_index radiation_level
    event_alert_log := L.event_alert_log.set L.log_index old_alert_mode
    log_index := (L.log_index + 1) % L.event_radiation_log.length }

/-- Fold `writeEvent` over a list of (reading, pre-tick mode) pairs. -/
def writeEvents (L : LogState) : List (Nat × Nat) → LogState
  | [] => L
  | e :: es => writeEvents (writeEvent e.1 e.2 L) es

/-- The state after the all-zero state reads 200: Critical with
protection engaged. -/
def afterCritical : AlertState :=
  { initialState with accumulated_radiation := 200, alert_mode := 2, protection_mode := 1 }

/-- The state after the all-zero state reads 45: only the accumulator
moved. -/
def afterSafe45 : AlertState :=
  { initialState with accumulated_radiation := 45 }

/-- The all-zero state with the previous tick classified Moderate. -/
def fromModerate : AlertState :=
  { initialState with alert_mode := 1 }

/-- The state `fromModerate` reaches on reading 45: the exposure counter
advanced because the previous mode was non-Safe. -/
def fromModerateAfter45 : AlertState :=
  { initialState with accumulated_radiation := 45, exposure_time := 1 }

/-- A representable state whose exposure counter sits at the 4-bit
maximum while the previous mode is non-Safe. -/
def exposureSaturated : AlertState :=
  { initialState with alert_mode := 1, exposure_time := 15 }

/-- The all-zero state with the accumulator already at the hardcoded trip
threshold 300, so the next tick trips. -/
def tripping300 : AlertState :=
  { initialState with accumulated_radiation := 300 }

/-- The state `tripping300` reaches on reading 45: the tick trips and one
log record (45 with the pre-tick mode 0) lands at index 0. -/
def tripping300After45 : AlertState :=
  { initialState with accumulated_radiation := 345, alert := 1,
                      event_radiation_log := (List.replicate 10 0).set 0 45,
                      log_index := 1 }


/-- Unfolding lemma: a tick succeeds and its result has these fields.  The
post-tick fields are expressions in the pre-tick fields of `s`, read off
line by line from the process body. -/
theorem check_radiation_some_fields (limit : Nat) (s : AlertState) (r : Nat)
    (s' : AlertState) (h : check_radiation limit s r = some s') :
    s'.accumulated_radiation =
      (if s.accumulated_radiation + r < 65536 then s.accumulated_radiation + r
       else 65535) ∧
    s'.alert_mode = (if limit + 50 < r then 2 else if limit < r then 1 else 0) ∧
    s'.protection_mode =
      (if limit + 50 < r then 1 else if limit < r then s.protection_mode else 0) ∧
    s'.exposure_time = (if s.alert_mode ≠ 0 then s.exposure_time + 1 else 0) ∧
    s'.alert =
      (if 3 ≤ s.exposure_time ∨ 300 ≤ s.accumulated_radiation then 1 else 0) ∧
    (if 3 ≤ s.exposure_time ∨ 300 ≤ s.accumulated_radiation then
       s'.event_radiation_log = s.event_radiation_log.set s.log_index r ∧
       s'.event_alert_log = s.event_alert_log.set s.log_index s.alert_mode ∧
       s'.log_index = (s.log_index + 1) % s.event_radiation_log.length
     else
       s'.event_radiation_log = s.event_radiation_log ∧
       s'.event_alert_log = s.event_alert_log ∧
       s'.log_index = s.log_index) := by
  simp only [check_radiation] at h
  by_cases hov : 16 ≤ (if s.alert_mode ≠ 0 then s.exposure_time + 1 else 0)
  · rw [if_pos hov] at h
    exact absurd h (by simp)
  · rw [if_neg hov] at h
    by_cases ht : 3 ≤ s.exposure_time ∨ 300 ≤ s.accumulated_radiation
    · rw [if_pos ht] at h
      injection h with h
      subst h
      simp [ht]
    · rw [if_neg ht] at h
      injection h with h
      subst h
      simp [ht]

/-- Unfolding lemma: a tick fails exactly when the pre-tick alert mode is
non-Safe and the exposure counter is already at 15, so that the increment
on line 40 leaves the 4-bit range. -/
theorem check_radiation_none_iff (limit : Nat) (s : AlertState) (r : Nat) :
    check_radiation limit s r = none ↔
      s.alert_mode ≠ 0 ∧ 15 ≤ s.exposure_time := by
  simp only [check_radiation]
  by_cases hm : s.alert_mode ≠ 0
  · rw [if_pos hm]
    by_cases he : 15 ≤ s.exposure_time
    · rw [if_pos (by omega : 16 ≤ s.exposure_time + 1)]
      simp [hm, he]
    · rw [if_neg (by omega : ¬ 16 ≤ s.exposure_time + 1)]
      split <;> simp [he]
  · rw [if_neg hm]
    rw [if_neg (by omega : ¬ (16 : Nat) ≤ 0)]
    split <;> simp [hm]

/-- Claim C1 counterexample: after the readings 200 then 120 (limit 100),
the second tick classifies Moderate (alert_mode 1, not Critical) yet
protection_mode is still 1, because the Moderate branch of the source
never assigns `protection_mode.next`; so the post-tick protection_mode
does not equal (post-tick alert_mode == Critical). -/
theorem C1_counterexample :
    (runFrom 100 initialState [200, 120]).map
        (fun s => (s.alert_mode, s.protection_mode)) = some (1, 1) ∧
      (1 : Nat) ≠ 2 ∧ (1 : Nat) ≠ 0 := by
  constructor
  · rfl
  · constructor <;> decide

/-- Claim C1, amended: the Critical branch sets protection_mode to 1 and
the Safe branch sets it to 0, but the Moderate branch leaves it latched
at the previous tick's value; so protection_mode equals
(alert_mode == Critical) only on Critical and Safe ticks. -/
theorem C1_protection_latched (limit : Nat) (s : AlertState) (r : Nat)
    (s' : AlertState) (h : check_radiation limit s r = some s') :
    (s'.alert_mode = 2 → s'.protection_mode = 1) ∧
    (s'.alert_mode = 0 → s'.protection_mode = 0) ∧
    (s'.alert_mode = 1 → s'.protection_mode = s.protection_mode) := by
  obtain ⟨-, hmode, hprot, -, -, -⟩ := check_radiation_some_fields limit s r s' h
  rw [hmode, hprot]
  by_cases h1 : limit + 50 < r <;> by_cases h2 : limit < r <;>
    simp [h1, h2]

/-- Claim C1 witness: the amended protection rule evaluated on the tick
taking the all-zero state through reading 200. -/
theorem C1_witness :
    (afterCritical.alert_mode = 2 → afterCritical.protection_mode = 1) ∧
    (afterCritical.alert_mode = 0 → afterCritical.protection_mode = 0) ∧
    (afterCritical.alert_mode = 1 →
      afterCritical.protection_mode = initialState.protection_mode) :=
  C1_protection_latched 100 initialState 200 afterCritical (by decide)

/-- Claim C2 counterexample: two readings of 255 from the all-zero state
give post-tick accumulated_radiation 510 ≥ 300 on the second tick, yet
alert is 0 there, because line 44 of the source tests the pre-tick
accumulator value 255; so the trip test does not read the values newly
computed in the same tick. -/
theorem C2_counterexample :
    (runFrom 100 initialState [255, 255]).map
        (fun s => (s.accumulated_radiation, s.alert)) = some (510, 0) ∧
      (300 : Nat) ≤ 510 ∧ (0 : Nat) ≠ 1 := by
  constructor
  · rfl
  · constructor <;> decide

/-- Claim C2, amended: the alert output is 1 exactly when the PRE-tick
exposure_time is at least 3 or the PRE-tick accumulated_radiation is at
least 300; the trip test reads the values carried over from the previous
tick, not the ones computed in the same tick. -/
theorem C2_trip_reads_pre_tick (limit : Nat) (s : AlertState) (r : Nat)
    (s' : AlertState) (h : check_radiation limit s r = some s') :
    (s'.alert = 1 ↔ 3 ≤ s.exposure_time ∨ 300 ≤ s.accumulated_radiation) ∧
    (s'.alert = 0 ↔ ¬ (3 ≤ s.exposure_time ∨ 300 ≤ s.accumulated_radiation)) := by
  obtain ⟨-, -, -, -, halert, -⟩ := check_radiation_some_fields limit s r s' h
  rw [halert]
  by_cases ht : 3 ≤ s.exposure_time ∨ 300 ≤ s.accumulated_radiation <;> simp [ht]

/-- Claim C2 witness: the amended trip rule evaluated on the tick taking
the all-zero state through reading 45. -/
theorem C2_witness :
    (afterSafe45.alert = 1 ↔
       3 ≤ initialState.exposure_time ∨ 300 ≤ initialState.accumulated_radiation) ∧
    (afterSafe45.alert = 0 ↔
       ¬ (3 ≤ initialState.exposure_time ∨
           300 ≤ initialState.accumulated_radiation)) :=
  C2_trip_reads_pre_tick 100 initialState 45 afterSafe45 (by decide)

/-- Claim C3 counterexample: one reading of 200 from the all-zero state
computes alert_mode 2 (Critical, not Safe) on that tick, yet post-tick
exposure_time is 0 rather than 0 + 1, because line 39 of the source tests
the pre-tick alert_mode, which was Safe. -/
theorem C3_counterexample :
    (runFrom 100 initialState [200]).map
        (fun s => (s.alert_mode, s.exposure_time)) = some (2, 0) ∧
      (2 : Nat) ≠ 0 ∧ (0 : Nat) ≠ 0 + 1 := by
  constructor
  · rfl
  · constructor <;> decide

/-- Claim C3, amended: when the PREVIOUS tick's alert_mode is not Safe the
exposure counter is incremented by an unguarded addition — clamping never
happens: at the 4-bit maximum 15 the increment leaves the representable
range and the tick fails — and when the previous alert_mode is Safe the
counter resets to 0. -/
theorem C3_exposure_uses_pre_tick_mode (limit : Nat) (s : AlertState) (r : Nat) :
    (∀ s', check_radiation limit s r = some s' →
       s'.exposure_time = if s.alert_mode ≠ 0 then s.exposure_time + 1 else 0) ∧
    (s.alert_mode ≠ 0 → 15 ≤ s.exposure_time → check_radiation limit s r = none) := by
  constructor
  · intro s' h
    exact (check_radiation_some_fields limit s r s' h).2.2.2.1
  · intro hm he
    exact (check_radiation_none_iff limit s r).2 ⟨hm, he⟩

/-- Claim C3 witness: both parts of the amended exposure rule evaluated at
concrete states — the all-zero state with pre-tick mode Moderate, and a
state at the 4-bit exposure maximum. -/
theorem C3_witness :
    (fromModerateAfter45.exposure_time =
      if fromModerate.alert_mode ≠ 0 then fromModerate.exposure_time + 1 else 0) ∧
    check_radiation 100 exposureSaturated 45 = none := by
  constructor
  · exact (C3_exposure_uses_pre_tick_mode 100 fromModerate 45).1
      fromModerateAfter45 (by decide)
  · exact (C3_exposure_uses_pre_tick_mode 100 exposureSaturated 45).2
      (by decide) (by decide)

/-- Claim C6 counterexample: a representable state with exposure_time at
its maximum 15 and a non-Safe previous mode makes the tick fail (the
unguarded increment on line 40 leaves the 4-bit range), and that state is
reachable — 17 consecutive readings of 120 from the all-zero state abort
the run. -/
theorem C6_counterexample :
    check_radiation 100 exposureSaturated 45 = none ∧
      Representable exposureSaturated ∧
      runFrom 100 initialState (List.replicate 17 120) = none := by
  refine ⟨by rfl, by decide, by rfl⟩

/-- Claim C6, amended: the tick is defined for every representable state
and every input except exactly when the pre-tick alert_mode is non-Safe
and exposure_time is already 15; there the exposure increment exceeds the
4-bit range and the update fails instead of clamping. -/
theorem C6_totality_boundary (limit : Nat) (s : AlertState) (r : Nat)
    (hrep : Representable s) :
    (check_radiation limit s r).isSome ↔
      ¬ (s.alert_mode ≠ 0 ∧ s.exposure_time = 15) := by
  rw [Option.isSome_iff_ne_none, ne_eq, check_radiation_none_iff]
  obtain ⟨-, -, -, hexp, -⟩ := hrep
  constructor
  · intro hne ⟨hm, he⟩
    exact hne ⟨hm, by omega⟩
  · intro hne ⟨hm, he⟩
    exact hne ⟨hm, by omega⟩

/-- Claim C6 witness: the totality boundary evaluated at the all-zero
state with reading 45. -/
theorem C6_witness :
    (check_radiation 100 initialState 45).isSome ↔
      ¬ (initialState.alert_mode ≠ 0 ∧ initialState.exposure_time = 15) :=
  C6_totality_boundary 100 initialState 45 (by decide)

/-- Claim C7, confirmed: the post-tick alert_mode is 2 iff the reading
exceeds limit + 50, is 1 iff the reading exceeds limit but not limit + 50,
and is 0 iff the reading is at most limit; and it depends only on the
current reading, not on the previous state. -/
theorem C7_classification (limit : Nat) (s : AlertState) (r : Nat)
    (s' : AlertState) (h : check_radiation limit s r = some s') :
    (s'.alert_mode = 2 ↔ limit + 50 < r) ∧
    (s'.alert_mode = 1 ↔ limit < r ∧ r ≤ limit + 50) ∧
    (s'.alert_mode = 0 ↔ r ≤ limit) ∧
    (∀ t t', check_radiation limit t r = some t' → t'.alert_mode = s'.alert_mode) := by
  obtain ⟨-, hmode, -, -, -, -⟩ := check_radiation_some_fields limit s r s' h
  refine ⟨?_, ?_, ?_, ?_⟩
  · rw [hmode]
    by_cases h1 : limit + 50 < r <;> by_cases h2 : limit < r <;>
      simp [h1, h2]
  · rw [hmode]
    by_cases h1 : limit + 50 < r <;> by_cases h2 : limit < r <;>
      (simp [h1, h2]; try omega)
  · rw [hmode]
    by_cases h1 : limit + 50 < r <;> by_cases h2 : limit < r <;>
      (simp [h1, h2]; try omega)
  · intro t t' ht
    obtain ⟨-, hmode2, -, -, -, -⟩ := check_radiation_some_fields limit t r t' ht
    rw [hmode, hmode2]

/-- Claim C7 witness: the classification evaluated on the tick taking the
all-zero state through reading 200, which lands in the Critical band. -/
theorem C7_witness :
    (afterCritical.alert_mode = 2 ↔ 100 + 50 < 200) ∧
    (afterCritical.alert_mode = 1 ↔ 100 < 200 ∧ 200 ≤ 100 + 50) ∧
    (afterCritical.alert_mode = 0 ↔ 200 ≤ 100) ∧
    (∀ t t', check_radiation 100 t 200 = some t' →
      t'.alert_mode = afterCritical.alert_mode) :=
  C7_classification 100 initialState 200 afterCritical (by decide)

/-- Claim C9, confirmed: when the pre-tick trip test of line 44 fails,
the post-tick alert is 0 and both event logs and the log cursor are
unchanged; entries are written only on trip ticks. -/
theorem C9_no_trip_frame (limit : Nat) (s : AlertState) (r : Nat)
    (s' : AlertState) (h : check_radiation limit s r = some s')
    (hnt : ¬ (3 ≤ s.exposure_time ∨ 300 ≤ s.accumulated_radiation)) :
    s'.alert = 0 ∧
    s'.event_radiation_log = s.event_radiation_log ∧
    s'.event_alert_log = s.event_alert_log ∧
    s'.log_index = s.log_index := by
  obtain ⟨-, -, -, -, halert, hlog⟩ := check_radiation_some_fields limit s r s' h
  rw [if_neg hnt] at hlog
  rw [halert, if_neg hnt]
  exact ⟨rfl, hlog⟩

/-- Claim C9 witness: the no-trip frame property evaluated on the tick
taking the all-zero state through reading 45. -/
theorem C9_witness :
    afterSafe45.alert = 0 ∧
    afterSafe45.event_radiation_log = initialState.event_radiation_log ∧
    afterSafe45.event_alert_log = initialState.event_alert_log ∧
    afterSafe45.log_index = initialState.log_index :=
  C9_no_trip_frame 100 initialState 45 afterSafe45 (by decide) (by decide)

/-- Claim C10, confirmed: on a trip tick both event logs are written at
the same index, the current log_index — the radiation log gets the
reading and the alert log gets the pre-tick alert_mode — and the cursor
advances once; on a non-trip tick neither log nor the cursor changes, so
entries at equal indices are always written together on the same tick. -/
theorem C10_logs_lockstep (limit : Nat) (s : AlertState) (r : Nat)
    (s' : AlertState) (h : check_radiation limit s r = some s') :
    ((3 ≤ s.exposure_time ∨ 300 ≤ s.accumulated_radiation) →
       s'.event_radiation_log = s.event_radiation_log.set s.log_index r ∧
       s'.event_alert_log = s.event_alert_log.set s.log_index s.alert_mode ∧
       s'.log_index = (s.log_index + 1) % s.event_radiation_log.length) ∧
    (¬ (3 ≤ s.exposure_time ∨ 300 ≤ s.accumulated_radiation) →
       s'.event_radiation_log = s.event_radiation_log ∧
       s'.event_alert_log = s.event_alert_log ∧
       s'.log_index = s.log_index) := by
  obtain ⟨-, -, -, -, -, hlog⟩ := check_radiation_some_fields limit s r s' h
  constructor
  · intro ht
    rwa [if_pos ht] at hlog
  · intro ht
    rwa [if_neg ht] at hlog

/-- Claim C10 witness: the lockstep property evaluated on the tick taking
the all-zero state through reading 45. -/
theorem C10_witness :
    ((3 ≤ initialState.exposure_time ∨ 300 ≤ initialState.accumulated_radiation) →
       afterSafe45.event_radiation_log =
         initialState.event_radiation_log.set initialState.log_index 45 ∧
       afterSafe45.event_alert_log =
         initialState.event_alert_log.set initialState.log_index
           initialState.alert_mode ∧
       afterSafe45.log_index =
         (initialState.log_index + 1) % initialState.event_radiation_log.length) ∧
    (¬ (3 ≤ initialState.exposure_time ∨ 300 ≤ initialState.accumulated_radiation) →
       afterSafe45.event_radiation_log = initialState.event_radiation_log ∧
       afterSafe45.event_alert_log = initialState.event_alert_log ∧
       afterSafe45.log_index = initialState.log_index) :=
  C10_logs_lockstep 100 initialState 45 afterSafe45 (by decide)

/-- Step lemma for the accumulator: one successful tick never decreases
it and keeps it at or below 65535, the largest 16-bit value. -/
theorem acc_step_bounded (limit : Nat) (s : AlertState) (r : Nat)
    (s' : AlertState) (h : check_radiation limit s r = some s')
    (hle : s.accumulated_radiation ≤ 65535) :
    s.accumulated_radiation ≤ s'.accumulated_radiation ∧
      s'.accumulated_radiation ≤ 65535 := by
  obtain ⟨hacc, -, -, -, -, -⟩ := check_radiation_some_fields limit s r s' h
  rw [hacc]
  split <;> omega

/-- Along any run whose start has a bounded accumulator, the accumulator
is non-decreasing tick to tick and stays at or below 65535. -/
theorem traceFrom_acc_bounded (limit : Nat) (rs : List Nat) :
    ∀ s : AlertState, s.accumulated_radiation ≤ 65535 →
      List.Chain' (fun a b => a ≤ b)
        ((s :: traceFrom limit s rs).map AlertState.accumulated_radiation) ∧
      ∀ u ∈ traceFrom limit s rs, u.accumulated_radiation ≤ 65535 := by
  induction rs with
  | nil =>
    intro s hs
    simp [traceFrom]
  | cons r rs ih =>
    intro s hs
    cases hcr : check_radiation limit s r with
    | none =>
      simp [traceFrom, hcr]
    | some s2 =>
      have hstep := acc_step_bounded limit s r s2 hcr hs
      have ihs := ih s2 hstep.2
      simp only [traceFrom, hcr, List.map_cons, List.chain'_cons]
      refine ⟨⟨hstep.1, ?_⟩, ?_⟩
      · simpa using ihs.1
      · intro u hu
        rcases List.mem_cons.mp hu with h1 | h2
        · rw [h1]; exact hstep.2
        · exact ihs.2 u h2

set_option maxRecDepth 40000 in
/-- Claim C5 counterexample: a concrete run from the all-zero state
(258 repetitions of the pair 255, 0, keeping the exposure counter low)
drives the accumulator to exactly 65535, which exceeds
max_value - 1 = 65534: the clamp on line 28 is to
`accumulated_radiation.max - 1 = 65536 - 1 = 65535`, because the MyHDL
`.max` attribute is the exclusive bound of the 16-bit field, not its
largest value. -/
theorem C5_counterexample :
    (runFrom 100 initialState ((List.replicate 258 [255, 0]).flatten)).map
        AlertState.accumulated_radiation = some 65535 ∧
      65534 < 65535 := by
  constructor
  · rfl
  · decide

/-- Claim C5, amended: from the all-zero state the accumulator is
non-decreasing across ticks and never exceeds 65535, the largest value of
its 16-bit field; additions that would reach or pass 65536 clamp to
65535 instead of wrapping. -/
theorem C5_accumulator_monotone (rs : List Nat) :
    List.Chain' (fun a b => a ≤ b)
      ((initialState :: traceFrom 100 initialState rs).map
        AlertState.accumulated_radiation) ∧
    ∀ u ∈ traceFrom 100 initialState rs, u.accumulated_radiation ≤ 65535 :=
  traceFrom_acc_bounded 100 rs initialState (by decide)

/-- Claim C5 witness: the monotone-and-bounded property evaluated on the
one-tick run with reading 45. -/
theorem C5_witness :
    afterSafe45.accumulated_radiation ≤ 65535 :=
  (C5_accumulator_monotone [45]).2 afterSafe45 (by decide)

/-- Claim C8 counterexample: on the reference readings the third tick
classifies Moderate (alert_mode 1), not Critical, since 150 is not
strictly greater than critical_limit = 150; the per-tick alert_mode
sequence is therefore not the claimed [Safe, Safe, Critical, Safe,
Critical], and the single log entry written at tick 5 records alert_mode
0 (the pre-tick mode), not Critical. -/
theorem C8_counterexample :
    (traceFrom 100 initialState [45, 75, 150, 90, 200]).map
        AlertState.alert_mode = [0, 0, 1, 0, 2] ∧
      ([0, 0, 1, 0, 2] : List Nat) ≠ [0, 0, 2, 0, 2] ∧
      (runFrom 100 initialState [45, 75, 150, 90, 200]).map
        (fun s => s.event_alert_log[0]?) = some (some 0) ∧
      (0 : Nat) ≠ 2 := by
  refine ⟨by rfl, by decide, by rfl, by decide⟩

/-- Claim C8, amended: the reference readings [45, 75, 150, 90, 200] from
the all-zero state yield per-tick alert_mode [Safe, Safe, Moderate, Safe,
Critical] and protection_mode [0, 0, 0, 0, 1], accumulated_radiation 560
after tick 5, alert 0 on ticks 1 through 4 and 1 first at tick 5, with
exactly one log entry written at index 0 holding radiation_level 200 and
the pre-tick alert_mode 0 (Safe), and log_index equal to 1. -/
theorem C8_scenario :
    (traceFrom 100 initialState [45, 75, 150, 90, 200]).map
        (fun s => (s.alert_mode, s.protection_mode, s.alert)) =
      [(0, 0, 0), (0, 0, 0), (1, 0, 0), (0, 0, 0), (2, 1, 1)] ∧
    (runFrom 100 initialState [45, 75, 150, 90, 200]).map
        (fun s => (s.accumulated_radiation, s.event_radiation_log,
                   s.event_alert_log, s.log_index)) =
      some (560, 200 :: List.replicate 9 0, List.replicate 10 0, 1) := by
  constructor <;> rfl

/-- Folding writes over an appended list is folding over each part in
turn. -/
theorem writeEvents_append (T1 T2 : List (Nat × Nat)) :
    ∀ L : LogState, writeEvents L (T1 ++ T2) = writeEvents (writeEvents L T1) T2 := by
  induction T1 with
  | nil => intro L; rfl
  | cons e T ih => intro L; simpa [writeEvents] using ih (writeEvent e.1 e.2 L)

/-- Window lemma for the circular log: writing at most 10 events into
10-cell arrays from a cursor below 10 preserves the lengths, advances the
cursor by the number of events modulo 10, lands event j at cell
(start + j) % 10, and leaves every other cell unchanged. -/
theorem writeEvents_window (T : List (Nat × Nat)) :
    ∀ L : LogState, L.event_radiation_log.length = 10 →
      L.event_alert_log.length = 10 → L.log_index < 10 → T.length ≤ 10 →
      (writeEvents L T).event_radiation_log.length = 10 ∧
      (writeEvents L T).event_alert_log.length = 10 ∧
      (writeEvents L T).log_index = (L.log_index + T.length) % 10 ∧
      (∀ j, j < T.length →
        (writeEvents L T).event_radiation_log[(L.log_index + j) % 10]? =
          (T[j]?).map Prod.fst ∧
        (writeEvents L T).event_alert_log[(L.log_index + j) % 10]? =
          (T[j]?).map Prod.snd) ∧
      (∀ p, (∀ j, j < T.length → (L.log_index + j) % 10 ≠ p) →
        (writeEvents L T).event_radiation_log[p]? = L.event_radiation_log[p]? ∧
        (writeEvents L T).event_alert_log[p]? = L.event_alert_log[p]?) := by
  induction T with
  | nil =>
    intro L h1 h2 hidx hlen
    refine ⟨h1, h2, ?_, ?_, ?_⟩
    · show L.log_index = (L.log_index + 0) % 10
      omega
    · intro j hj
      exact absurd hj (by simp)
    · intro p hp
      exact ⟨rfl, rfl⟩
  | cons e T ih =>
    intro L h1 h2 hidx hlen
    have hT9 : T.length ≤ 9 := by
      simpa using hlen
    have hW1 : (writeEvent e.1 e.2 L).event_radiation_log.length = 10 := by
      simp [writeEvent, h1]
    have hW2 : (writeEvent e.1 e.2 L).event_alert_log.length = 10 := by
      simp [writeEvent, h2]
    have hWidx : (writeEvent e.1 e.2 L).log_index = (L.log_index + 1) % 10 := by
      simp [writeEvent, h1]
    obtain ⟨ih1, ih2, ih3, ihHit, ihFrame⟩ :=
      ih (writeEvent e.1 e.2 L) hW1 hW2 (by omega) (by omega)
    have hwe : writeEvents L (e :: T) = writeEvents (writeEvent e.1 e.2 L) T := rfl
    rw [hwe]
    refine ⟨ih1, ih2, ?_, ?_, ?_⟩
    · rw [ih3, hWidx, List.length_cons]
      omega
    · intro j hj
      match j with
      | 0 =>
        have hp0 : (L.log_index + 0) % 10 = L.log_index := by omega
        have hne : ∀ j2, j2 < T.length →
            ((writeEvent e.1 e.2 L).log_index + j2) % 10 ≠ L.log_index := by
          intro j2 hj2
          rw [hWidx]
          omega
        obtain ⟨hf1, hf2⟩ := ihFrame L.log_index hne
        rw [hp0, hf1, hf2]
        constructor
        · show (L.event_radiation_log.set L.log_index e.1)[L.log_index]? = _
          rw [List.getElem?_set_eq_of_lt e.1 (by omega)]
          simp
        · show (L.event_alert_log.set L.log_index e.2)[L.log_index]? = _
          rw [List.getElem?_set_eq_of_lt e.2 (by omega)]
          simp
      | j2 + 1 =>
        have hj2 : j2 < T.length := by
          simpa using hj
        obtain ⟨hh1, hh2⟩ := ihHit j2 hj2
        have hmod : ((writeEvent e.1 e.2 L).log_index + j2) % 10 =
            (L.log_index + (j2 + 1)) % 10 := by
          rw [hWidx]
          omega
        rw [hmod] at hh1 hh2
        rw [hh1, hh2]
        exact ⟨by rw [List.getElem?_cons_succ], by rw [List.getElem?_cons_succ]⟩
    · intro p hp
      have hpL : L.log_index ≠ p := by
        have := hp 0 (by simp)
        omega
      have hne : ∀ j2, j2 < T.length →
          ((writeEvent e.1 e.2 L).log_index + j2) % 10 ≠ p := by
        intro j2 hj2
        have := hp (j2 + 1) (by simpa using Nat.succ_lt_succ hj2)
        rw [hWidx]
        omega
      obtain ⟨hf1, hf2⟩ := ihFrame p hne
      rw [hf1, hf2]
      constructor
      · show (L.event_radiation_log.set L.log_index e.1)[p]? = _
        rw [List.getElem?_set_ne hpL]
      · show (L.event_alert_log.set L.log_index e.2)[p]? = _
        rw [List.getElem?_set_ne hpL]

/-- Claim C4 counterexample: on the run [255, 255, 50] the third tick
trips (alert 1) and writes index 0, advancing log_index to 1, but the
alert-log entry written there is 2 — the alert_mode of the PREVIOUS tick —
while the alert_mode newly computed on the trip tick is 0; the entry is
not the newly computed mode, contradicting the claim. -/
theorem C4_counterexample :
    (runFrom 100 initialState [255, 255, 50]).map
        (fun s => (s.alert, s.alert_mode, s.event_alert_log[0]?, s.log_index)) =
      some (1, 0, some 2, 1) ∧
      some (2 : Nat) ≠ some 0 := by
  refine ⟨by rfl, by decide⟩

/-- Claim C4, amended: on a trip tick the core writes
{radiation_level, alert_mode of the PREVIOUS tick} at position log_index,
then advances log_index to (log_index + 1) mod log_capacity; and after
log_capacity + k trip writes (k < capacity) from the initial log state,
the buffer holds exactly the most recent capacity trip records in
circular order — record number k + j sits at cell (k + j) % 10 — and
log_index equals k. -/
theorem C4_log_write_and_wraparound (limit : Nat) (s : AlertState) (r : Nat)
    (s' : AlertState) (T : List (Nat × Nat)) (k : Nat)
    (h : check_radiation limit s r = some s')
    (htrip : 3 ≤ s.exposure_time ∨ 300 ≤ s.accumulated_radiation)
    (hk : k < 10) (hT : T.length = 10 + k) :
    s'.logOf = writeEvent r s.alert_mode s.logOf ∧
    (writeEvents initialState.logOf T).log_index = k ∧
    (∀ j, j < 10 →
      (writeEvents initialState.logOf T).event_radiation_log[(k + j) % 10]? =
        (T[k + j]?).map Prod.fst ∧
      (writeEvents initialState.logOf T).event_alert_log[(k + j) % 10]? =
        (T[k + j]?).map Prod.snd) := by
  obtain ⟨-, -, -, -, -, hlog⟩ := check_radiation_some_fields limit s r s' h
  rw [if_pos htrip] at hlog
  obtain ⟨hl1, hl2, hl3⟩ := hlog
  constructor
  · simp [AlertState.logOf, writeEvent, hl1, hl2, hl3]
  · have happ : writeEvents initialState.logOf T =
        writeEvents (writeEvents initialState.logOf (T.take k)) (T.drop k) := by
      conv_lhs => rw [← List.take_append_drop k T]
      exact writeEvents_append (T.take k) (T.drop k) initialState.logOf
    have hlen0r : initialState.logOf.event_radiation_log.length = 10 := by decide
    have hlen0a : initialState.logOf.event_alert_log.length = 10 := by decide
    have hidx0 : initialState.logOf.log_index < 10 := by decide
    have htake : (T.take k).length = k := by
      rw [List.length_take]
      omega
    obtain ⟨w1, w2, w3, -, -⟩ :=
      writeEvents_window (T.take k) initialState.logOf hlen0r hlen0a hidx0
        (by omega)
    have hdrop : (T.drop k).length = 10 := by
      rw [List.length_drop]
      omega
    obtain ⟨-, -, v3, vHit, -⟩ :=
      writeEvents_window (T.drop k) (writeEvents initialState.logOf (T.take k))
        w1 w2 (by rw [w3]; omega) (by omega)
    have hmid : (writeEvents initialState.logOf (T.take k)).log_index = k := by
      rw [w3, htake]
      show (0 + k) % 10 = k
      omega
    constructor
    · rw [happ, v3, hmid, hdrop]
      omega
    · intro j hj
      obtain ⟨u1, u2⟩ := vHit j (by omega)
      rw [hmid] at u1 u2
      rw [happ, u1, u2, List.getElem?_drop]
      exact ⟨rfl, rfl⟩

/-- Claim C4 witness: the per-tick write rule evaluated on the tripping
state reading 45, and the wraparound property evaluated at the 12-record
list of pairs (7, 2) with k = 2. -/
theorem C4_witness :
    tripping300After45.logOf = writeEvent 45 tripping300.alert_mode tripping300.logOf ∧
    (writeEvents initialState.logOf (List.replicate 12 (7, 2))).log_index = 2 ∧
    (∀ j, j < 10 →
      (writeEvents initialState.logOf
          (List.replicate 12 (7, 2))).event_radiation_log[(2 + j) % 10]? =
        ((List.replicate 12 (7, 2))[2 + j]?).map Prod.fst ∧
      (writeEvents initialState.logOf
          (List.replicate 12 (7, 2))).event_alert_log[(2 + j) % 10]? =
        ((List.replicate 12 (7, 2))[2 + j]?).map Prod.snd) :=
  C4_log_write_and_wraparound 100 tripping300 45 tripping300After45
    (List.replicate 12 (7, 2)) 2 (by decide) (by decide) (by decide) (by decide)
